import Mathlib

/-!
Verification of `CAKE Tool/Create-TVShow-Excel.py`.

The script holds a hardcoded mapping from TV-show names to episode/cast
record lists, then for each show creates a worksheet and appends:
a `["Episodes"]` label row, the rows of
`pd.concat([pd.DataFrame([episodes_df.columns]), episodes_df]).values`,
a blank row, a `["Main Cast"]` label row, and the analogous cast rows.
Finally it saves the workbook to `TV_Shows_DummyData.xlsx` and prints one
confirmation line.

Pandas semantics embedded below (from the pandas constructors used):
`pd.DataFrame(list_of_dicts)` takes its column labels from the union of the
dict keys in first-appearance order, and fills a missing key with NaN.
`pd.DataFrame([df.columns])` passes a list whose single element is an
`Index`; the DataFrame constructor treats it as a plain row of values, so
the resulting one-row frame has positional integer column labels
`0 .. n-1`, NOT the labels of `df`. `pd.concat` (axis=0, default
`join="outer"`, `sort=False`) therefore outer-joins two frames with
disjoint column sets: the result has the first frame's integer columns
followed by the data frame's string columns, missing entries filled with
NaN. Consequently each emitted header row is the `n` field names followed
by `n` NaN cells, and each emitted data row is `n` NaN cells followed by
the `n` record values.

Cell values: the data contains only strings and numeric literals, and no
arithmetic is ever performed on them, so numerics are modelled exactly as
rationals; the float NaN introduced by the pandas alignment is a distinct
`Cell.nan` constructor.
-/

namespace TVShowExcel

/-- A spreadsheet cell value: a string, a numeric literal (int or float in
the source; no arithmetic is done, so an exact rational token is faithful),
or the float NaN that pandas uses for missing entries. -/
inductive Cell where
  | str : String → Cell
  | num : Rat → Cell
  | nan : Cell
deriving DecidableEq

/-- One worksheet row, as passed to `ws.append`; the blank row is `[]`. -/
abbrev Row := List Cell

/-- One record dict of the source, as an ordered association list
(Python dicts preserve insertion order; keys in a literal are unique). -/
abbrev Record := List (String × Cell)

/-- The value of one show: its `"episodes"` and `"cast"` lists. -/
structure ShowData where
  episodes : List Record
  cast : List Record
deriving DecidableEq

/-- The show mapping: an insertion-ordered association of show name to
show data, as a Python dict iterated with `.items()`. -/
abbrev Dataset := List (String × ShowData)

/-- Column labels of `pd.DataFrame(records)`: the union of the records'
keys in order of first appearance. -/
def dfColumns (records : List Record) : List String :=
  records.foldl
    (fun acc rec =>
      rec.foldl (fun acc kv => if acc.contains kv.1 then acc else acc ++ [kv.1]) acc)
    []

/-- Value of a record at a column label; a missing key is NaN in the
frame built by `pd.DataFrame(records)`. -/
def recordLookup (rec : Record) (k : String) : Cell :=
  match rec.lookup k with
  | some v => v
  | none => Cell.nan

/-- The rows of `pd.concat([pd.DataFrame([df.columns]), df]).values` for
`df = pd.DataFrame(records)`, in worksheet append order.

`pd.DataFrame([df.columns])` has positional column labels `0 .. n-1`
(the constructor sees the `Index` as a plain row), disjoint from the
string labels of `df`, so the outer join has `2*n` columns: the `n`
positional ones first, then the `n` string ones. The header row carries
the field names under the positional labels and NaN under the string
labels; each record row carries NaN under the positional labels and the
record's values under the string labels. -/
def blockRows (records : List Record) : List Row :=
  let cols := dfColumns records
  (cols.map Cell.str ++ cols.map fun _ => Cell.nan)
    :: records.map fun rec => (cols.map fun _ => Cell.nan) ++ cols.map (recordLookup rec)

/-- All rows appended to one show's worksheet, in order: the `Episodes`
label, the episodes block, a blank row, the `Main Cast` label, and the
cast block. -/
def sheetRows (d : ShowData) : List Row :=
  [Cell.str "Episodes"]
    :: (blockRows d.episodes
      ++ ([] :: [Cell.str "Main Cast"] :: blockRows d.cast))

/-- One worksheet of the output workbook. -/
structure Sheet where
  title : String
  rows : List Row
deriving DecidableEq

/-- `Workbook()`: a fresh workbook holds one default sheet (openpyxl names
it `Sheet`), which is the active sheet. -/
def initialWorkbook : List Sheet := [{ title := "Sheet", rows := [] }]

/-- `wb.remove(wb.active)` on a fresh workbook: drop the default sheet. -/
def wbRemoveActive (wb : List Sheet) : List Sheet := wb.drop 1

/-- The export loop: starting from the workbook with its default sheet
removed, `wb.create_sheet(title=show)` appends, per show in mapping
order, a sheet titled by the show name holding that show's rows. -/
def exportShows (d : Dataset) : List Sheet :=
  d.foldl
    (fun wb sd => wb ++ [{ title := sd.1, rows := sheetRows sd.2 }])
    (wbRemoveActive initialWorkbook)

/-- Characters openpyxl rejects in a sheet title
(`INVALID_TITLE_REGEX`): backslash, `*`, `?`, `:`, `/`, `[`, `]`. -/
def invalidTitleChar (c : Char) : Bool :=
  c == '\\' || c == '*' || c == '?' || c == ':' || c == '/' || c == '[' || c == ']'

/-- openpyxl title assignment in `create_sheet(title=show)`: a title with
an invalid character raises (the error propagates, no sheet is created);
otherwise the title is stored exactly as given — openpyxl never truncates,
substitutes characters, or renames (a title longer than 31 characters only
triggers a warning and is kept verbatim; duplicate-title renaming cannot
arise from a dict, whose keys are unique). -/
def sheetTitleResult (s : String) : Except String String :=
  if s.data.any invalidTitleChar then
    Except.error "Invalid character found in sheet title"
  else
    Except.ok s

/-- The observable outcome of one program run: the path passed to
`wb.save`, the sheets saved there, and the console lines printed. -/
structure ProgramResult where
  savedPath : String
  savedSheets : List Sheet
  consoleLines : List String
deriving DecidableEq

/-- The fixed output file name of `wb.save(...)`. -/
def outputFileName : String := "TV_Shows_DummyData.xlsx"

/-- The whole program on a dataset: build the workbook, save it to the
fixed relative path (hence the current working directory), print the one
confirmation line. -/
def runProgram (d : Dataset) : ProgramResult :=
  { savedPath := outputFileName
  , savedSheets := exportShows d
  , consoleLines :=
      ["Excel file \x27TV_Shows_DummyData.xlsx\x27 created with all worksheets and dummy data."] }

/-! The hardcoded dataset, transcribed literally from the script. -/

/-- The single Friends episode record. -/
def friendsEpisode1 : Record :=
  [ ("Season", Cell.num 1), ("Episode", Cell.num 1)
  , ("Title", Cell.str "The One Where Monica Gets a Roommate")
  , ("Director", Cell.str "James Burrows")
  , ("Synopsis", Cell.str "Monica and the gang introduce Rachel to the real world.")
  , ("OTT Platform", Cell.str "Max")
  , ("Air Date", Cell.str "1994-09-22")
  , ("Runtime", Cell.str "22 min")
  , ("Rating", Cell.num (mkRat 81 10)) ]

/-- The six Friends cast records. -/
def friendsCast : List Record :=
  [ [ ("Actor Name", Cell.str "Jennifer Aniston"), ("Character", Cell.str "Rachel Green")
    , ("Nationality", Cell.str "American"), ("Awards", Cell.str "Emmy, Golden Globe") ]
  , [ ("Actor Name", Cell.str "Courteney Cox"), ("Character", Cell.str "Monica Geller")
    , ("Nationality", Cell.str "American"), ("Awards", Cell.str "") ]
  , [ ("Actor Name", Cell.str "Lisa Kudrow"), ("Character", Cell.str "Phoebe Buffay")
    , ("Nationality", Cell.str "American"), ("Awards", Cell.str "Emmy") ]
  , [ ("Actor Name", Cell.str "Matt LeBlanc"), ("Character", Cell.str "Joey Tribbiani")
    , ("Nationality", Cell.str "American"), ("Awards", Cell.str "Emmy Nominee") ]
  , [ ("Actor Name", Cell.str "Matthew Perry"), ("Character", Cell.str "Chandler Bing")
    , ("Nationality", Cell.str "Canadian-American"), ("Awards", Cell.str "Emmy Nominee") ]
  , [ ("Actor Name", Cell.str "David Schwimmer"), ("Character", Cell.str "Ross Geller")
    , ("Nationality", Cell.str "American"), ("Awards", Cell.str "Emmy Nominee") ] ]

/-- The Friends show entry. -/
def friendsShow : ShowData :=
  { episodes := [friendsEpisode1], cast := friendsCast }

/-- The Breaking Bad show entry. -/
def breakingBadShow : ShowData :=
  { episodes :=
      [ [ ("Season", Cell.num 1), ("Episode", Cell.num 1)
        , ("Title", Cell.str "Pilot")
        , ("Director", Cell.str "Vince Gilligan")
        , ("Synopsis", Cell.str "Walter White turns to making meth after a cancer diagnosis.")
        , ("OTT Platform", Cell.str "AMC/Netflix")
        , ("Air Date", Cell.str "2008-01-20")
        , ("Runtime", Cell.str "59 min")
        , ("Rating", Cell.num (mkRat 91 10)) ] ]
  , cast :=
      [ [ ("Actor Name", Cell.str "Bryan Cranston"), ("Character", Cell.str "Walter White")
        , ("Nationality", Cell.str "American"), ("Awards", Cell.str "Emmy, Golden Globe") ]
      , [ ("Actor Name", Cell.str "Aaron Paul"), ("Character", Cell.str "Jesse Pinkman")
        , ("Nationality", Cell.str "American"), ("Awards", Cell.str "Emmy") ]
      , [ ("Actor Name", Cell.str "Anna Gunn"), ("Character", Cell.str "Skyler White")
        , ("Nationality", Cell.str "American"), ("Awards", Cell.str "Emmy") ]
      , [ ("Actor Name", Cell.str "Dean Norris"), ("Character", Cell.str "Hank Schrader")
        , ("Nationality", Cell.str "American"), ("Awards", Cell.str "") ]
      , [ ("Actor Name", Cell.str "Betsy Brandt"), ("Character", Cell.str "Marie Schrader")
        , ("Nationality", Cell.str "American"), ("Awards", Cell.str "") ]
      , [ ("Actor Name", Cell.str "RJ Mitte"), ("Character", Cell.str "Walter White Jr.")
        , ("Nationality", Cell.str "American"), ("Awards", Cell.str "") ] ] }

/-- The Prison Break show entry. -/
def prisonBreakShow : ShowData :=
  { episodes :=
      [ [ ("Season", Cell.num 1), ("Episode", Cell.num 1)
        , ("Title", Cell.str "Pilot")
        , ("Director", Cell.str "Brett Ratner")
        , ("Synopsis", Cell.str "Michael Scofield gets imprisoned to break out his brother Lincoln.")
        , ("OTT Platform", Cell.str "Fox/Hulu")
        , ("Air Date", Cell.str "2005-08-29")
        , ("Runtime", Cell.str "45 min")
        , ("Rating", Cell.num (mkRat 87 10)) ] ]
  , cast :=
      [ [ ("Actor Name", Cell.str "Wentworth Miller"), ("Character", Cell.str "Michael Scofield")
        , ("Nationality", Cell.str "British-American"), ("Awards", Cell.str "Golden Globe Nominee") ]
      , [ ("Actor Name", Cell.str "Dominic Purcell"), ("Character", Cell.str "Lincoln Burrows")
        , ("Nationality", Cell.str "Australian"), ("Awards", Cell.str "") ]
      , [ ("Actor Name", Cell.str "Sarah Wayne Callies"), ("Character", Cell.str "Sara Tancredi")
        , ("Nationality", Cell.str "American"), ("Awards", Cell.str "") ]
      , [ ("Actor Name", Cell.str "Amaury Nolasco"), ("Character", Cell.str "Fernando Sucre")
        , ("Nationality", Cell.str "Puerto Rican"), ("Awards", Cell.str "") ]
      , [ ("Actor Name", Cell.str "Robert Knepper")
        , ("Character", Cell.str "Theodore \"T-Bag\" Bagwell")
        , ("Nationality", Cell.str "American"), ("Awards", Cell.str "") ] ] }

/-- The Lost show entry. -/
def lostShow : ShowData :=
  { episodes :=
      [ [ ("Season", Cell.num 1), ("Episode", Cell.num 1)
        , ("Title", Cell.str "Pilot (Part 1)")
        , ("Director", Cell.str "J.J. Abrams")
        , ("Synopsis", Cell.str "Survivors of Oceanic Flight 815 crash on a mysterious island.")
        , ("OTT Platform", Cell.str "ABC/Hulu")
        , ("Air Date", Cell.str "2004-09-22")
        , ("Runtime", Cell.str "42 min")
        , ("Rating", Cell.num (mkRat 91 10)) ] ]
  , cast :=
      [ [ ("Actor Name", Cell.str "Matthew Fox"), ("Character", Cell.str "Jack Shephard")
        , ("Nationality", Cell.str "American"), ("Awards", Cell.str "") ]
      , [ ("Actor Name", Cell.str "Evangeline Lilly"), ("Character", Cell.str "Kate Austen")
        , ("Nationality", Cell.str "Canadian"), ("Awards", Cell.str "") ]
      , [ ("Actor Name", Cell.str "Terry O\x27Quinn"), ("Character", Cell.str "John Locke")
        , ("Nationality", Cell.str "American"), ("Awards", Cell.str "Emmy") ]
      , [ ("Actor Name", Cell.str "Josh Holloway")
        , ("Character", Cell.str "James \"Sawyer\" Ford")
        , ("Nationality", Cell.str "American"), ("Awards", Cell.str "") ]
      , [ ("Actor Name", Cell.str "Jorge Garcia")
        , ("Character", Cell.str "Hugo \"Hurley\" Reyes")
        , ("Nationality", Cell.str "American"), ("Awards", Cell.str "") ]
      , [ ("Actor Name", Cell.str "Naveen Andrews"), ("Character", Cell.str "Sayid Jarrah")
        , ("Nationality", Cell.str "British"), ("Awards", Cell.str "") ] ] }

/-- The `shows` dict of the script, in its literal insertion order. -/
def shows : Dataset :=
  [ ("Friends", friendsShow)
  , ("Breaking Bad", breakingBadShow)
  , ("Prison Break", prisonBreakShow)
  , ("Lost", lostShow) ]

/-- The nine episode field names, in the fixed order of the record
literals (spec section 6's Episodes column order). -/
def episodeFields : List String :=
  ["Season", "Episode", "Title", "Director", "Synopsis",
   "OTT Platform", "Air Date", "Runtime", "Rating"]

/-- The four cast field names, in the fixed order of the record literals
(spec section 6's Main Cast column order). -/
def castFields : List String :=
  ["Actor Name", "Character", "Nationality", "Awards"]

/-- Modelled from the spec: the round-trip reader of a table block pairs
each header-row cell with the data-row cell in the same column. -/
def specReadBack (headerRow dataRow : Row) : List (Cell × Cell) :=
  headerRow.zip dataRow

/-- A record as the field-by-field pairs the spec's round-trip reader
should recover: each field name (as the header cell) with its value. -/
def recordPairs (rec : Record) : List (Cell × Cell) :=
  rec.map fun kv => (Cell.str kv.1, kv.2)

/-- A show whose episode list is empty (the cast list is the Friends
one), exercising the empty-block edge case of the export loop. -/
def emptyEpisodesShow : ShowData :=
  { episodes := [], cast := friendsCast }

/-- The first sheet of the output workbook, the Friends one. -/
def friendsSheet : Sheet :=
  { title := "Friends", rows := sheetRows friendsShow }

/-- C1: the claim says reading the produced sheet's episode rows back
yields the original records field-by-field. It fails at the show
Friends: the header cells sit over NaN cells (the pandas outer join
misaligns the header frame's positional columns with the data frame's
named columns), so the read-back pairs every episode field name with NaN,
not with its value; the cell below the first header cell is NaN. -/
theorem c1_friends_roundtrip_fails :
    specReadBack ((sheetRows friendsShow).getD 1 []) ((sheetRows friendsShow).getD 2 [])
        ≠ recordPairs friendsEpisode1
    ∧ ((sheetRows friendsShow).getD 2 []).getD 0 (Cell.str "") = Cell.nan := by
  decide

/-- C2: the claim's Friends layout fails in rows 2, 3 and 6: the sheet
does have `["Episodes"]` at row 1, the blank row 4 and `["Main Cast"]` at
row 5 and twelve rows in total, but row 2 is the 9 header fields followed
by 9 NaN cells (18 cells, not the 9 header fields), row 3 is 9 NaN cells
followed by the 9 episode values, and row 6 is not the 4 cast header
fields alone. -/
theorem c2_friends_sheet_misaligned :
    (sheetRows friendsShow).get? 0 = some [Cell.str "Episodes"]
    ∧ (sheetRows friendsShow).get? 1
        = some (episodeFields.map Cell.str ++ List.replicate 9 Cell.nan)
    ∧ (sheetRows friendsShow).get? 1 ≠ some (episodeFields.map Cell.str)
    ∧ (sheetRows friendsShow).get? 2
        = some (List.replicate 9 Cell.nan ++ episodeFields.map (recordLookup friendsEpisode1))
    ∧ (sheetRows friendsShow).get? 3 = some []
    ∧ (sheetRows friendsShow).get? 4 = some [Cell.str "Main Cast"]
    ∧ (sheetRows friendsShow).get? 5 ≠ some (castFields.map Cell.str)
    ∧ (sheetRows friendsShow).length = 12 := by
  decide

/-- C3: the claim says each block's header row is exactly the fixed field
names. In every sheet the header rows instead carry the field names (in
the stated order) followed by one NaN cell per data column, so they are
not exactly the field-name lists. -/
theorem c3_header_rows_padded :
    ∀ p ∈ shows,
      (sheetRows p.2).get? 1
          = some (episodeFields.map Cell.str ++ List.replicate 9 Cell.nan)
      ∧ (sheetRows p.2).get? (4 + p.2.episodes.length)
          = some (castFields.map Cell.str ++ List.replicate 4 Cell.nan)
      ∧ (sheetRows p.2).get? 1 ≠ some (episodeFields.map Cell.str) := by
  decide

/-- C3 witness: the padded header rows at the concrete show Friends of
the dataset. -/
theorem c3_header_rows_padded_witness :
    ("Friends", friendsShow) ∈ shows
    ∧ ((sheetRows friendsShow).get? 1
          = some (episodeFields.map Cell.str ++ List.replicate 9 Cell.nan)
      ∧ (sheetRows friendsShow).get? (4 + friendsShow.episodes.length)
          = some (castFields.map Cell.str ++ List.replicate 4 Cell.nan)
      ∧ (sheetRows friendsShow).get? 1 ≠ some (episodeFields.map Cell.str)) :=
  ⟨by decide, c3_header_rows_padded ("Friends", friendsShow) (by decide)⟩

/-- C4: in every sheet of the output document, the first row is exactly
`["Episodes"]`, the row immediately after the episode data rows (index
`2 + number of episodes`, after the label and header rows) is the empty
row — empty across all used columns — and the row after that is exactly
`["Main Cast"]`. -/
theorem c4_labels_and_separator :
    ∀ s ∈ exportShows shows, ∃ p ∈ shows,
      s.title = p.1 ∧ s.rows = sheetRows p.2
      ∧ s.rows.get? 0 = some [Cell.str "Episodes"]
      ∧ s.rows.get? (2 + p.2.episodes.length) = some []
      ∧ s.rows.get? (3 + p.2.episodes.length) = some [Cell.str "Main Cast"] := by
  decide

/-- C4 witness: the label rows and blank separator at the concrete
Friends sheet of the output workbook. -/
theorem c4_labels_and_separator_witness :
    friendsSheet ∈ exportShows shows
    ∧ ∃ p ∈ shows,
        friendsSheet.title = p.1 ∧ friendsSheet.rows = sheetRows p.2
        ∧ friendsSheet.rows.get? 0 = some [Cell.str "Episodes"]
        ∧ friendsSheet.rows.get? (2 + p.2.episodes.length) = some []
        ∧ friendsSheet.rows.get? (3 + p.2.episodes.length) = some [Cell.str "Main Cast"] :=
  ⟨by decide, c4_labels_and_separator friendsSheet (by decide)⟩

/-- C5: the sheet titles of the output document are exactly the show
names in the insertion order of the show mapping, and each show name
titles exactly one sheet. -/
theorem c5_one_sheet_per_show_in_order :
    (exportShows shows).map Sheet.title = shows.map Prod.fst
    ∧ ∀ p ∈ shows,
        ((exportShows shows).filter fun s => s.title == p.1).length = 1 := by
  decide

/-- C6: the claim says an empty episode list still yields a header row
containing the known fixed field names. It fails at a show with an empty
episode list: the row after the `["Episodes"]` label is empty (the header
is derived from the records, and there are none), and no row of the sheet
contains the `Season` field name. -/
theorem c6_counterexample :
    (sheetRows emptyEpisodesShow).get? 1 = some []
    ∧ ¬ ∃ r ∈ sheetRows emptyEpisodesShow, Cell.str "Season" ∈ r := by
  decide

/-- C6 amended: if a show's episode or cast list is empty, the export
writes, for the empty block, its label row followed by a single empty row
(the header row derived from zero records carries no field names) and no
data rows: with an empty episode list the sheet starts with the
`["Episodes"]` label, one empty row, the blank separator and the
`["Main Cast"]` label; with an empty cast list the sheet is the episodes
part and separator followed by exactly the `["Main Cast"]` label and one
empty row, ending there. -/
theorem c6_empty_block_amended (d : ShowData) (h : d.episodes = [] ∨ d.cast = []) :
    (d.episodes = [] →
        sheetRows d
          = [Cell.str "Episodes"] :: [] :: []
              :: [Cell.str "Main Cast"] :: blockRows d.cast
        ∧ (blockRows d.episodes).length = 1)
    ∧ (d.cast = [] →
        sheetRows d
          = ([Cell.str "Episodes"] :: (blockRows d.episodes ++ [[]]))
              ++ [[Cell.str "Main Cast"], []]
        ∧ (blockRows d.cast).length = 1) := by
  obtain ⟨eps, c⟩ := d
  refine ⟨fun he => ?_, fun hc => ?_⟩
  · have he' : eps = [] := he
    subst he'
    exact ⟨rfl, rfl⟩
  · have hc' : c = [] := hc
    subst hc'
    refine ⟨?_, rfl⟩
    show [Cell.str "Episodes"]
          :: (blockRows eps ++ ([] :: [Cell.str "Main Cast"] :: [[]]))
        = ([Cell.str "Episodes"] :: (blockRows eps ++ [[]]))
            ++ [[Cell.str "Main Cast"], []]
    simp

/-- C6 witness: the amended layout at the concrete show with an empty
episode list. -/
theorem c6_empty_block_witness :
    (emptyEpisodesShow.episodes = [] ∨ emptyEpisodesShow.cast = [])
    ∧ ((emptyEpisodesShow.episodes = [] →
          sheetRows emptyEpisodesShow
            = [Cell.str "Episodes"] :: [] :: []
                :: [Cell.str "Main Cast"] :: blockRows emptyEpisodesShow.cast
          ∧ (blockRows emptyEpisodesShow.episodes).length = 1)
      ∧ (emptyEpisodesShow.cast = [] →
          sheetRows emptyEpisodesShow
            = ([Cell.str "Episodes"] :: (blockRows emptyEpisodesShow.episodes ++ [[]]))
                ++ [[Cell.str "Main Cast"], []]
          ∧ (blockRows emptyEpisodesShow.cast).length = 1)) :=
  ⟨Or.inl rfl, c6_empty_block_amended emptyEpisodesShow (Or.inl rfl)⟩

/-- C7: the exported content (saved sheets, save path, console output) is
a deterministic function of the input dataset: two runs on identical
input produce identical results. -/
theorem c7_deterministic (d1 d2 : Dataset) (h : d1 = d2) :
    runProgram d1 = runProgram d2 := by
  rw [h]

/-- C7 witness: two runs on the hardcoded dataset agree. -/
theorem c7_deterministic_witness : runProgram shows = runProgram shows :=
  c7_deterministic shows shows rfl

/-- C8: the program saves the workbook under the fixed relative file name
`TV_Shows_DummyData.xlsx` (hence in the current working directory) and
prints exactly one console line, which names that file (the file name
occurs verbatim inside the line). -/
theorem c8_fixed_output_and_message :
    (runProgram shows).savedPath = "TV_Shows_DummyData.xlsx"
    ∧ (runProgram shows).consoleLines.length = 1
    ∧ (runProgram shows).consoleLines
        = ["Excel file \x27" ++ outputFileName
            ++ "\x27 created with all worksheets and dummy data."] := by
  decide

/-- C9: the default sheet of the fresh workbook is removed before the
export loop, so the output contains exactly the four show-named sheets,
in dataset order, and no sheet keeps the default title `Sheet`. -/
theorem c9_only_show_sheets :
    initialWorkbook = [{ title := "Sheet", rows := [] }]
    ∧ wbRemoveActive initialWorkbook = []
    ∧ (exportShows shows).length = 4
    ∧ (exportShows shows).map Sheet.title
        = ["Friends", "Breaking Bad", "Prison Break", "Lost"]
    ∧ ∀ s ∈ exportShows shows, s.title ≠ "Sheet" := by
  decide

/-- C10: sheet titles are the show names verbatim: openpyxl's title
assignment either rejects a title (invalid character, error propagates)
or stores exactly the given string — it never truncates, sanitizes or
renames — and the concrete export titles each sheet with its show name
unchanged. -/
theorem c10_titles_verbatim :
    (∀ s t, sheetTitleResult s = Except.ok t → t = s)
    ∧ (exportShows shows).map Sheet.title = shows.map Prod.fst := by
  constructor
  · intro s t h
    unfold sheetTitleResult at h
    split at h
    · cases h
    · cases h
      rfl
  · decide

/-- C10 witness: the title assignment at the concrete show name
`Friends` succeeds and returns it unchanged. -/
theorem c10_titles_verbatim_witness :
    sheetTitleResult "Friends" = Except.ok "Friends" ∧ "Friends" = "Friends" :=
  ⟨rfl, c10_titles_verbatim.1 "Friends" "Friends" rfl⟩

end TVShowExcel
